import Mathlib

/-!
Verification development for the Leeloo_Ui runtime brain.

Shallow embedding of the parts of the code that the checked properties are
about: the tap detector (leeloo_tap.py), the LED manager (leeloo_led.py),
the voice pipeline (leeloo_voice.py), and the orchestrator
(leeloo_brain.py: expand_frame, the typewriter step, the single-tap
dispatch and the reconnect loop).  Times and analogue magnitudes are
modelled as rationals, counts as naturals.  Each definition carries a
comment naming the source lines it embeds.
-/

namespace Leeloo

/-- UI display states, from leeloo_brain.py lines 62-69 (class UIState). -/
inductive UIState
  | NORMAL
  | EXPANDING
  | EXPANDED
  | COLLAPSING
  | LISTENING
  | PROCESSING
deriving DecidableEq, Repr

/-- Frames that can be expanded, from display/frame_animator.py lines 32-37. -/
inductive FrameType
  | WEATHER
  | TIME
  | MESSAGES
  | ALBUM
deriving DecidableEq, Repr

/-! ## Tap detector (leeloo_tap.py) -/

namespace Tap

/-- leeloo_tap.py line 31: DOUBLE_TAP_WINDOW = 0.50 (s). -/
def DOUBLE_TAP_WINDOW : ℚ := 1/2

/-- leeloo_tap.py line 32: TRIPLE_TAP_WINDOW = 0.80 (s). -/
def TRIPLE_TAP_WINDOW : ℚ := 4/5

/-- leeloo_tap.py line 33: DEBOUNCE_TIME = 0.50 (s). -/
def DEBOUNCE_TIME : ℚ := 1/2

/-- leeloo_tap.py line 37: TAP_THRESHOLD = 1.2 (m/s² delta). -/
def TAP_THRESHOLD : ℚ := 6/5

/-- leeloo_tap.py line 39: SETTLE_DRAIN_READS = 5. -/
def SETTLE_DRAIN_READS : ℕ := 5

/-- Embeds `TapManager._check_tap` (leeloo_tap.py lines 79-99): given the stored
`_prev_magnitude` and the freshly read magnitude, reports whether the delta
exceeds the threshold (a raw tap) and returns the updated `_prev_magnitude`.
The comparison in the source is strict: `if delta > TAP_THRESHOLD`. -/
def checkTap (prev magnitude : ℚ) : Bool × ℚ :=
  (decide (TAP_THRESHOLD < |magnitude - prev|), magnitude)

/-- The polling loop of `TapManager.start` (leeloo_tap.py lines 149-169),
restricted to what it does with magnitude readings: scan the sequence of
readings, count raw taps (`_check_tap` hits, lines 155-156), and after each
accepted raw tap drain `SETTLE_DRAIN_READS` readings, each of which only
refreshes `_prev_magnitude` without a tap check (lines 160-167), so
mechanical rebound is not counted.  `drain` is the number of settle reads
still to be drained. -/
def tapScanGo (drain : ℕ) (prev : ℚ) : List ℚ → ℕ
  | [] => 0
  | m :: ms =>
    match drain with
    | d + 1 => tapScanGo d m ms
    | 0 =>
      if TAP_THRESHOLD < |m - prev| then 1 + tapScanGo SETTLE_DRAIN_READS m ms
      else tapScanGo 0 m ms

/-- Raw taps produced by `TapManager.start` on a sequence of magnitude
readings, starting outside any settle period. -/
def tapScan (prev : ℚ) (ms : List ℚ) : ℕ := tapScanGo 0 prev ms

/-- Tap kinds emitted by `TapManager._resolve_taps` (leeloo_tap.py lines 101-125). -/
inductive TapKind
  | single
  | double
  | triple
deriving DecidableEq, Repr

/-- The kind `_resolve_taps` emits for an accumulated count
(leeloo_tap.py lines 103-114). -/
def resolveKind (count : ℕ) : TapKind :=
  if 3 ≤ count then .triple else if 2 ≤ count then .double else .single

/-- State of the tap-sequence resolver: `_tap_count`, `_last_tap_time`, and
the deadline at which the pending `_resolve_taps` task will fire (`none`
when no resolution is pending).  A pending resolution's deadline is its
scheduling time plus the wait of lines 106-107; a resolution scheduled at a
count of 3 takes the no-wait branch (lines 103-104) and fires at once. -/
structure ResolveState where
  tapCount : ℕ
  lastTapTime : ℚ
  pending : Option ℚ
deriving DecidableEq, Repr

/-- Initial resolver state (leeloo_tap.py lines 53-55). -/
def initResolveState : ResolveState := ⟨0, 0, none⟩

/-- If the pending `_resolve_taps` sleep expires strictly before time `t`,
it fires: it emits the kind for the count at that moment (lines 109-114)
and resets `_tap_count` to 0 (lines 116-117).  A raw tap whose timestamp
equals the deadline is processed first: the pending task's sleep starts
strictly after `_on_tap_detected` recorded its `time.time()`, so the task's
true wake-up time is strictly later than `lastTapTime + window`. -/
def fireIfDue (s : ResolveState) (t : ℚ) : ResolveState × List (ℚ × TapKind) :=
  match s.pending with
  | some d =>
    if d < t then ({ s with tapCount := 0, pending := none }, [(d, resolveKind s.tapCount)])
    else (s, [])
  | none => (s, [])

/-- Embeds `TapManager._on_tap_detected` (leeloo_tap.py lines 127-147) for a raw
tap at time `t`, preceded by the firing of any resolution already due.
Debounce (lines 131-134): a raw tap within `DEBOUNCE_TIME` of the last
accepted one is dropped.  Otherwise the count is bumped (line 136), the
pending resolution is cancelled (lines 139-141), and a new `_resolve_taps`
is scheduled (lines 143-147): at count ≥ 3 it runs its no-wait branch and
emits immediately, otherwise it will fire after the window of
lines 106-107. -/
def onRawTap (s : ResolveState) (t : ℚ) : ResolveState × List (ℚ × TapKind) :=
  let p := fireIfDue s t
  let s1 := p.1
  if t - s1.lastTapTime < DEBOUNCE_TIME then (s1, p.2)
  else
    let c := s1.tapCount + 1
    if 3 ≤ c then
      ({ tapCount := 0, lastTapTime := t, pending := none }, p.2 ++ [(t, resolveKind c)])
    else
      ({ tapCount := c, lastTapTime := t,
         pending := some (t + (if 2 ≤ c then TRIPLE_TAP_WINDOW else DOUBLE_TAP_WINDOW)) },
       p.2)

/-- Run the resolver over a time-ordered list of raw taps; after the last
tap a still-pending resolution eventually fires at its deadline. -/
def runTaps (s : ResolveState) : List ℚ → ResolveState × List (ℚ × TapKind)
  | [] =>
    match s.pending with
    | some d => ({ s with tapCount := 0, pending := none }, [(d, resolveKind s.tapCount)])
    | none => (s, [])
  | t :: ts =>
    let p := onRawTap s t
    let q := runTaps p.1 ts
    (q.1, p.2 ++ q.2)

end Tap

/-! ## LED manager (leeloo_led.py) -/

namespace LED

/-- An RGB colour triple as used by `_set_color`. -/
def Color := ℕ × ℕ × ℕ
deriving DecidableEq, Repr

/-- leeloo_led.py line 33. -/
def GREEN : Color := (0, 255, 0)

/-- leeloo_led.py line 34. -/
def PURPLE : Color := (180, 0, 255)

/-- leeloo_led.py line 37. -/
def BLUE : Color := (0, 0, 255)

/-- leeloo_led.py line 38. -/
def OFF : Color := (0, 0, 0)

/-- Ambient states accepted by `set_ambient` (leeloo_led.py lines 157-165):
the strings "idle" and "playing". -/
inductive AmbientKind
  | idle
  | playing
deriving DecidableEq, Repr

/-- One spawned `_breathe` coroutine (leeloo_led.py lines 139-151),
identified by a task id and carrying the `start = time.time()` captured on
line 141, which fixes the phase of its sine-wave brightness. -/
structure BreatheTask where
  id : ℕ
  start : ℚ
deriving DecidableEq, Repr

/-- The LEDManager fields that `set_ambient` touches (leeloo_led.py
lines 53-59), plus two observation logs: `breathersRunning` lists every
ambient `_breathe` coroutine currently alive (the code keeps only the
newest handle in `_ambient_task`, but older ones would keep running if
they were never cancelled), and `writes` logs every `_set_color` call. -/
structure LEDState where
  ambientState : Option AmbientKind
  ambientTask : Option BreatheTask
  currentAnimation : Option String
  breathersRunning : List BreatheTask
  writes : List Color
deriving DecidableEq, Repr

/-- Embeds `LEDManager._cancel_current` (leeloo_led.py lines 95-103): cancel any
transient animation and clear `_current_animation`. -/
def cancel_current (s : LEDState) : LEDState :=
  { s with currentAnimation := none }

/-- Embeds `LEDManager._cancel_ambient` (leeloo_led.py lines 124-132): cancel the
ambient breathe task, await it, and clear `_ambient_task` (the ambient
*state* is kept). -/
def cancel_ambient (s : LEDState) : LEDState :=
  match s.ambientTask with
  | some t =>
      { s with ambientTask := none, breathersRunning := s.breathersRunning.erase t }
  | none => { s with ambientTask := none }

/-- Embeds `LEDManager._start_ambient_task` (leeloo_led.py lines 134-151): spawn a
fresh `_breathe` coroutine, capturing `start = time.time()` (line 141), and
store its handle in `_ambient_task`. -/
def start_ambient_task (now : ℚ) (freshId : ℕ) (s : LEDState) : LEDState :=
  { s with ambientTask := some ⟨freshId, now⟩,
           breathersRunning := s.breathersRunning ++ [⟨freshId, now⟩] }

/-- The colour a `_breathe` tick resolves before dimming (leeloo_led.py
line 143): `BLUE if self._ambient_state == "idle" else PURPLE`, read
lazily from `_ambient_state` on every tick. -/
def breatheTickColor (ambientState : Option AmbientKind) : Color :=
  if ambientState = some .idle then BLUE else PURPLE

/-- Embeds `LEDManager.set_ambient` (leeloo_led.py lines 157-188).  If a non-`none`
state is requested while the ambient task is already running, only
`_ambient_state` is updated (lines 167-176) — no task is cancelled or
started and no colour is written.  Otherwise everything is cancelled
cleanly, OFF is written (line 181), the state is stored, and for a
non-`none` state a fresh breathe task begins (lines 179-188).  `now` and
`freshId` parameterise the fresh task that a clean start would spawn. -/
def set_ambient (now : ℚ) (freshId : ℕ) (s : LEDState) (state : Option AmbientKind) :
    LEDState :=
  let ambientAlreadyRunning := s.ambientTask.isSome
  if state.isSome && ambientAlreadyRunning then
    { s with ambientState := state }
  else
    let s1 := cancel_ambient (cancel_current s)
    let s2 := { s1 with writes := s1.writes ++ [OFF], ambientState := state }
    match state with
    | some _ => start_ambient_task now freshId s2
    | none => s2

end LED

/-! ## WebSocket reconnect loop (leeloo_brain.py, `_ws_connection_loop`) -/

namespace WS

/-- leeloo_brain.py line 2002: `retry_delay = 5` (seconds, the base). -/
def WS_BASE : ℕ := 5

/-- leeloo_brain.py line 2003: `max_delay = 60` (seconds, the cap). -/
def WS_MAX : ℕ := 60

/-- One iteration of `LeelooBrain._ws_connection_loop` (leeloo_brain.py
lines 2005-2048) as a function of the current `retry_delay` and whether the
connect-and-join attempt of this iteration succeeded.  On success the delay
is reset to 5 (line 2021) and the session runs until disconnect; every
iteration then sleeps the current `retry_delay` (line 2047) and doubles it
up to the cap (line 2048).  Returns the delay slept this iteration and the
`retry_delay` passed to the next one. -/
def wsIter (d : ℕ) (joined : Bool) : ℕ × ℕ :=
  let d1 := if joined then WS_BASE else d
  (d1, min (d1 * 2) WS_MAX)

/-- The sequence of delays slept by `_ws_connection_loop` across a sequence
of attempt outcomes, starting from `retry_delay = d`. -/
def wsRun (d : ℕ) : List Bool → List ℕ
  | [] => []
  | ok :: rest =>
    let p := wsIter d ok
    p.1 :: wsRun p.2 rest

end WS

/-! ## Voice pipeline (leeloo_voice.py) -/

namespace Voice

/-- leeloo_voice.py line 42: MAX_RECORD_SECONDS = 15, so
`max_chunks = int(15 * 1000 / 100) = 150` (line 225). -/
def MAX_CHUNKS : ℕ := 150

/-- leeloo_voice.py line 51: INITIAL_GRACE_PERIOD = 0.5 s, so
`grace_chunks = int(0.5 * 1000 / 100) = 5` (line 226). -/
def GRACE_CHUNKS : ℕ := 5

/-- leeloo_voice.py line 49: SILENCE_DURATION = 1.5 s, so
`silence_chunks_needed = int(1.5 * 1000 / 100) = 15` (line 227). -/
def SILENCE_CHUNKS_NEEDED : ℕ := 15

/-- leeloo_voice.py line 50: NO_SPEECH_TIMEOUT = 5.0 s, so
`no_speech_chunks = int(5.0 * 1000 / 100) = 50` (line 228). -/
def NO_SPEECH_CHUNKS : ℕ := 50

/-- leeloo_voice.py line 48: SILENCE_THRESHOLD = 30 (RMS). -/
def SILENCE_THRESHOLD : ℚ := 30

/-- Mutable state of the `_stream_audio` loop (leeloo_voice.py
lines 223-230): `total_chunks`, `silence_samples`, `has_heard_speech`. -/
structure StreamState where
  totalChunks : ℕ
  silenceSamples : ℕ
  hasHeardSpeech : Bool
deriving DecidableEq, Repr

/-- The chunk loop of `VoiceManager._stream_audio` (leeloo_voice.py
lines 232-268) over the RMS values of the successive audio chunks,
returning the number of chunks streamed when recording stops.  The loop
runs while `total_chunks < max_chunks` (line 232); an exhausted stream is
the `arecord ended` break (lines 240-242); each chunk bumps the count
(line 246); RMS checks are skipped during the grace chunks (line 249);
a loud chunk (`rms > SILENCE_THRESHOLD`, line 252) marks speech and resets
the silence run, a quiet one extends it (lines 252-256); recording stops
once speech was heard and the silence run reaches the needed length
(lines 259-262), or if no speech was heard by the no-speech deadline
(lines 265-268). -/
def streamAudioGo (st : StreamState) : List ℚ → ℕ
  | [] => st.totalChunks
  | rms :: rest =>
    if MAX_CHUNKS ≤ st.totalChunks then st.totalChunks
    else
      let total := st.totalChunks + 1
      if total ≤ GRACE_CHUNKS then
        streamAudioGo ⟨total, st.silenceSamples, st.hasHeardSpeech⟩ rest
      else
        let loud := decide (SILENCE_THRESHOLD < rms)
        let heard := st.hasHeardSpeech || loud
        let silence := if loud then 0 else st.silenceSamples + 1
        if heard && decide (SILENCE_CHUNKS_NEEDED ≤ silence) then total
        else if !heard && decide (NO_SPEECH_CHUNKS ≤ total) then total
        else streamAudioGo ⟨total, silence, heard⟩ rest

/-- Runs `_stream_audio` from its initial state (leeloo_voice.py
lines 223-230). -/
def streamAudio (rmsList : List ℚ) : ℕ :=
  streamAudioGo ⟨0, 0, false⟩ rmsList

/-- The environment a `record_and_transcribe` call runs in
(leeloo_voice.py lines 92-219): whether the `websockets` module imported
(lines 26-31, 99-101), the configured API key (lines 103-105), whether the
Deepgram connect succeeded (line 117; refusal or auth failure raises,
caught at lines 209-214), whether the `arecord` subprocess could be
spawned (line 136; a missing binary raises, caught by the outer
`except Exception`), whether an exception interrupted the streaming loop
(caught *inside* `_stream_audio`, lines 273-275, which merely breaks the
loop), and the transcript fragments delivered by `receive_results`
(lines 148-172): the final fragments and the last interim one. -/
structure VoiceEnv where
  websocketsAvailable : Bool
  apiKey : String
  connectOk : Bool
  captureStartOk : Bool
  streamError : Bool
  finals : List String
  interim : String
deriving DecidableEq, Repr

/-- Python's `str.strip()` with no arguments — leading and trailing
whitespace removed — implemented directly on the character list. -/
def pyStrip (s : String) : String :=
  String.mk (((s.data.dropWhile Char.isWhitespace).reverse.dropWhile
    Char.isWhitespace).reverse)

/-- Embeds `VoiceManager.record_and_transcribe` (leeloo_voice.py lines 92-219).
Early returns "" when `websockets` is missing or no key is configured
(lines 99-105).  A connect/auth failure or a failure to spawn `arecord`
raises and is caught by `except` (lines 209-214), leaving the initial
`transcript = ""` (line 108) as the result.  Otherwise streaming runs; an
exception inside the streaming loop is caught there (lines 273-275) and
only stops the loop, so the call still reaches lines 202-207: it joins the
final fragments with spaces and strips (line 203), falling back to the
stripped last interim fragment when no final arrived (lines 206-207). -/
def record_and_transcribe (env : VoiceEnv) : String :=
  if !env.websocketsAvailable then ""
  else if env.apiKey = "" then ""
  else if !env.connectOk then ""
  else if !env.captureStartOk then ""
  else
    let t := pyStrip (String.intercalate " " env.finals)
    if t = "" && env.interim ≠ "" then pyStrip env.interim else t

end Voice

/-! ## Orchestrator (leeloo_brain.py) -/

namespace Brain

/-- leeloo_brain.py line 52: SCREEN_HEIGHT = 320. -/
def SCREEN_HEIGHT : ℕ := 320

/-- Layout of `_typewriter` (leeloo_brain.py line 648): `content_x = 7 + 10`. -/
def CONTENT_X : ℕ := 7 + 10

/-- Layout of `_typewriter` (leeloo_brain.py line 649): `content_y = 16 + 25`. -/
def CONTENT_Y : ℕ := 16 + 25

/-- Layout of `_typewriter` (leeloo_brain.py line 650): `line_height = 22`. -/
def LINE_HEIGHT : ℕ := 22

/-- leeloo_brain.py line 656: `max_y = SCREEN_HEIGHT - 20`. -/
def MAX_Y : ℕ := SCREEN_HEIGHT - 20

/-- leeloo_brain.py line 657: `visible_height = max_y - content_y`. -/
def VISIBLE_HEIGHT : ℕ := MAX_Y - CONTENT_Y

/-- One `(text, size, color)` tuple of `content_lines` (leeloo_brain.py
line 588 and the call sites). -/
structure ContentLine where
  text : String
  fontSize : Option String
  color : Option LED.Color

/-- Height contributed by one line in the pre-render pass of `_typewriter`
(leeloo_brain.py lines 660-665): an empty line advances `line_height // 2`,
any other line advances `line_height`. -/
def lineAdvance (l : ContentLine) : ℕ :=
  if l.text = "" then LINE_HEIGHT / 2 else LINE_HEIGHT

/-- Computes `total_content_height` of `_typewriter` (leeloo_brain.py
lines 660-665). -/
def totalContentHeight (lines : List ContentLine) : ℕ :=
  (lines.map lineAdvance).sum

/-- The overflow record `_typewriter` returns (leeloo_brain.py
lines 730-737); the rendered full-content image itself is pixel data and
is out of scope. -/
structure Overflow where
  total_height : ℕ
  visible_height : ℕ
  content_x : ℕ
  content_y : ℕ
deriving DecidableEq, Repr

/-- Embeds `LeelooBrain._typewriter` (leeloo_brain.py lines 644-738) reduced to
its return value: `none` when the framebuffer cannot be opened
(lines 675-679); otherwise the overflow record exactly when
`has_overflow`, i.e. `total_content_height > visible_height` (lines 667,
730-738), and `none` when the content fits. -/
def typewriter (fbOk : Bool) (lines : List ContentLine) : Option Overflow :=
  if !fbOk then none
  else if VISIBLE_HEIGHT < totalContentHeight lines then
    some ⟨totalContentHeight lines, VISIBLE_HEIGHT, CONTENT_X, CONTENT_Y⟩
  else none

/-- What the hold phase of `expand_frame` does after the typewriter
(leeloo_brain.py lines 617-624): scroll the overflowed content, or just
sleep for the hold duration. -/
inductive HoldAction
  | scroll (o : Overflow) (duration : ℚ)
  | sleep (duration : ℚ)
deriving DecidableEq, Repr

/-- The dispatch of leeloo_brain.py lines 617-624: `_scroll_content` is
invoked exactly when `_typewriter` returned an overflow record. -/
def holdPhase (overflow : Option Overflow) (duration : ℚ) : HoldAction :=
  match overflow with
  | some o => .scroll o duration
  | none => .sleep duration

/-- The orchestrator variables that `expand_frame` writes
(leeloo_brain.py lines 600-602 and 634-642).  `musicUpdated` and
`renderedNormal` record whether `_update_music` (line 641) and
`_render_normal` (line 642) ran on exit. -/
structure BrainVars where
  uiState : UIState
  expandedFrame : Option FrameType
  messageViewActive : Bool
  lastMusicFetch : ℕ
  musicUpdated : Bool
  renderedNormal : Bool
deriving DecidableEq, Repr

/-- The atomic phases of the `try` block of `expand_frame`
(leeloo_brain.py lines 604-629), in order: the animator geometry setup
(lines 606-607), the expand-animation await (line 611), setting EXPANDED
(line 614), the typewriter await (line 615), the hold await — scroll or
sleep (lines 618-624), setting COLLAPSING (line 627), and the
collapse-animation await (line 629).  Each phase is a transformer of the
orchestrator variables; awaits that only draw pixels leave them
unchanged. -/
def tryBodySteps : List (BrainVars → BrainVars) :=
  [ fun v => v,
    fun v => v,
    fun v => { v with uiState := .EXPANDED },
    fun v => v,
    fun v => v,
    fun v => { v with uiState := .COLLAPSING },
    fun v => v ]

/-- The `finally` block of `expand_frame` (leeloo_brain.py lines 634-642):
state back to NORMAL, the expanded-frame and message-view flags cleared,
the music cache invalidated (`last_music_fetch = 0`) and refreshed, and
the normal idle screen re-rendered. -/
def finallyBlock (v : BrainVars) : BrainVars :=
  { v with uiState := .NORMAL, expandedFrame := none, messageViewActive := false,
           lastMusicFetch := 0, musicUpdated := true, renderedNormal := true }

/-- A run of `expand_frame` entered with no other expansion in flight: the
prologue sets EXPANDING and the frame flags (lines 600-602), the try body
runs either to completion or until a cancellation or an exception aborts
it after `stopAfter` phases (`none` = run to completion; CancelledError is
re-raised at line 633), and the `finally` block runs on every one of those
exits (lines 634-642). -/
def expand_frame_run (v0 : BrainVars) (frame : FrameType) (stopAfter : Option ℕ) :
    BrainVars :=
  let vp := { v0 with uiState := .EXPANDING, expandedFrame := some frame,
                      messageViewActive := frame == .MESSAGES }
  let k := match stopAfter with
    | none => tryBodySteps.length
    | some i => min i tryBodySteps.length
  finallyBlock ((tryBodySteps.take k).foldl (fun v f => f v) vp)

/-- Task identities for expansion requests. -/
inductive TaskId
  | A
  | B
deriving DecidableEq, Repr

/-- The orchestrator's expansion bookkeeping for the submission protocol:
the UI state, the `_expand_task` handle, the list of `expand_frame` tasks
currently alive (executing their body), and the tasks whose prologue
cancelled *themselves* and swallowed the resulting CancelledError. -/
structure OrchState where
  uiState : UIState
  expandTask : Option TaskId
  inFlight : List TaskId
  selfCancelSwallowed : List TaskId
deriving DecidableEq, Repr

/-- Submission as every call site performs it, e.g.
`_handle_message_with_music` (leeloo_brain.py lines 306-308):
`self._expand_task = asyncio.ensure_future(self.expand_frame(...))`.
`ensure_future` creates and schedules the task; the assignment to
`_expand_task` completes before that task's body gets its first step on
the event loop. -/
def submitExpand (t : TaskId) (s : OrchState) : OrchState :=
  { s with expandTask := some t, inFlight := s.inFlight ++ [t] }

/-- The prologue of `expand_frame` (leeloo_brain.py lines 591-602) as run
by task `me`, with asyncio cancellation semantics.  When the UI is not
NORMAL it cancels `self._expand_task` and awaits it (lines 593-598).  If
that handle were another still-alive task, that task would be cancelled
and awaited: its `finally` would run, it would leave the in-flight list,
and the state would return to NORMAL before `me` proceeds.  But every call
site assigns the handle *before* this body runs, so the handle is `me`
itself: `cancel()` on the currently running task merely flags it, the
`await self._expand_task` raises CancelledError immediately, and the
`except asyncio.CancelledError: pass` of lines 597-598 swallows it — no
other task is cancelled and `me` carries on.  The prologue then sets
EXPANDING (line 600). -/
def expandPrologue (me : TaskId) (s : OrchState) : OrchState :=
  let s1 :=
    if s.uiState ≠ .NORMAL then
      match s.expandTask with
      | some t =>
        if t ∈ s.inFlight then
          if t = me then
            { s with selfCancelSwallowed := s.selfCancelSwallowed ++ [me] }
          else
            { s with inFlight := s.inFlight.erase t, uiState := .NORMAL }
        else s
      | none => s
    else s
  { s1 with uiState := .EXPANDING }

/-- The C1 scenario: request A is in flight, holding the expanded frame. -/
def scenarioA : OrchState :=
  { uiState := .EXPANDED, expandTask := some .A, inFlight := [.A],
    selfCancelSwallowed := [] }

/-- Submitting request B while A is in flight, then running B's prologue. -/
def scenarioAfterB : OrchState := expandPrologue .B (submitExpand .B scenarioA)

/-- The observable dispatches of `_handle_single_tap`
(leeloo_brain.py lines 813-868). -/
inductive TapAction
  | cancelExpand
  | ledAck
  | voiceInteraction
  | voiceOnlySession
  | demoWeatherExpand
deriving DecidableEq, Repr

/-- What `_handle_single_tap` reads: the UI state, whether `_expand_task`
is alive, and whether the voice manager and the intent router are
configured. -/
structure TapContext where
  uiState : UIState
  expandTaskActive : Bool
  hasVoice : Bool
  hasIntentRouter : Bool
deriving DecidableEq, Repr

/-- Embeds `LeelooBrain._handle_single_tap` (leeloo_brain.py lines 813-868) as
the list of actions it dispatches, in order.  While EXPANDED or EXPANDING
the tap only dismisses the live expansion (lines 815-819).  While
LISTENING or PROCESSING the tap is dropped entirely (lines 821-825).
Otherwise the LED acknowledgement runs first (line 828) and then either
the full voice interaction (lines 831-832), the voice-only session —
listening LED, capture, and a possible transcript expansion —
(lines 833-852), or the demo weather expansion (lines 853-868). -/
def handleSingleTap (c : TapContext) : List TapAction :=
  if c.uiState = .EXPANDED || c.uiState = .EXPANDING then
    if c.expandTaskActive then [.cancelExpand] else []
  else if c.uiState = .LISTENING || c.uiState = .PROCESSING then []
  else if c.hasVoice && c.hasIntentRouter then [.ledAck, .voiceInteraction]
  else if c.hasVoice then [.ledAck, .voiceOnlySession]
  else [.ledAck, .demoWeatherExpand]

end Brain

end Leeloo

/-! ## Theorems -/

namespace Leeloo

/-! ### Helper lemmas -/

/-- Unfolding equation for `tapScanGo` outside a settle period. -/
theorem tapScanGo_zero_cons (prev m : ℚ) (ms : List ℚ) :
    Tap.tapScanGo 0 prev (m :: ms) =
      if Tap.TAP_THRESHOLD < |m - prev| then
        1 + Tap.tapScanGo Tap.SETTLE_DRAIN_READS m ms
      else Tap.tapScanGo 0 m ms := rfl

/-- Unfolding equation for `tapScanGo` during the settle drain. -/
theorem tapScanGo_drain_cons (d : ℕ) (prev m : ℚ) (ms : List ℚ) :
    Tap.tapScanGo (d + 1) prev (m :: ms) = Tap.tapScanGo d m ms := rfl

/-- A steady magnitude produces no raw taps: each delta is 0. -/
theorem tapScanGo_steady (c : ℚ) : ∀ k : ℕ, Tap.tapScanGo 0 c (List.replicate k c) = 0 := by
  intro k
  induction k with
  | zero => rfl
  | succ n ih =>
    rw [List.replicate_succ, tapScanGo_zero_cons,
      if_neg (by norm_num [Tap.TAP_THRESHOLD] : ¬ Tap.TAP_THRESHOLD < |c - c|)]
    exact ih

/-- A settle drain entered on a steady magnitude produces no raw taps. -/
theorem tapScanGo_drain_steady (c : ℚ) : ∀ (n d : ℕ) (x : ℚ),
    Tap.tapScanGo (d + 1) x (List.replicate n c) = 0 := by
  intro n
  induction n with
  | zero => intro d x; rfl
  | succ k ih =>
    intro d x
    rw [List.replicate_succ, tapScanGo_drain_cons]
    cases d with
    | zero => exact tapScanGo_steady c k
    | succ e => exact ih e c

/-- Backoff delays of an uninterrupted failure streak starting from
`retry_delay = d ≤ cap`. -/
theorem wsRun_replicate_false (N : ℕ) :
    ∀ d : ℕ, d ≤ WS.WS_MAX →
      WS.wsRun d (List.replicate N false) =
        (List.range N).map fun i => min (d * 2 ^ i) WS.WS_MAX := by
  induction N with
  | zero => intro d _; simp [WS.wsRun]
  | succ n ih =>
    intro d hd
    have step : WS.wsRun d (List.replicate (n + 1) false) =
        d :: WS.wsRun (min (d * 2) WS.WS_MAX) (List.replicate n false) := by
      simp [List.replicate_succ, WS.wsRun, WS.wsIter]
    rw [step, ih (min (d * 2) WS.WS_MAX) (min_le_right _ _)]
    rw [List.range_succ_eq_map, List.map_cons, List.map_map]
    have hfun : ((fun i => min (d * 2 ^ i) WS.WS_MAX) ∘ Nat.succ) =
        fun i => min (min (d * 2) WS.WS_MAX * 2 ^ i) WS.WS_MAX := by
      funext i
      show min (d * 2 ^ (i + 1)) WS.WS_MAX = min (min (d * 2) WS.WS_MAX * 2 ^ i) WS.WS_MAX
      have h3 : (1 : ℕ) ≤ 2 ^ i := Nat.one_le_pow i 2 (by norm_num)
      rcases Nat.le_total (d * 2) WS.WS_MAX with h | h
      · rw [min_eq_left h, pow_succ]
        ring_nf
      · rw [min_eq_right h]
        have h1 : WS.WS_MAX ≤ WS.WS_MAX * 2 ^ i := by
          have h4 := Nat.mul_le_mul_left WS.WS_MAX h3
          linarith
        have h2 : WS.WS_MAX ≤ d * 2 ^ (i + 1) := by
          have h4 := Nat.mul_le_mul_left (d * 2) h3
          have h5 : d * 2 * 2 ^ i = d * 2 ^ (i + 1) := by ring
          linarith
        rw [min_eq_right h2, min_eq_right h1]
    rw [hfun]
    congr 1
    simp [Nat.min_eq_left hd]

/-! ### C1 -/

/-- C1 (code-bug evaluation): submitting expansion request B while request
A is in flight does not cancel A.  Every call site stores the new task in
`_expand_task` before that task's body runs (e.g. leeloo_brain.py
lines 306-308), so the prologue of `expand_frame` (lines 591-598) finds
*itself* in the handle, cancels itself, swallows the CancelledError in its
own `except asyncio.CancelledError: pass`, and proceeds to EXPANDING while
A keeps running.  After B's prologue both A and B are in flight,
contradicting the claimed at-most-one-in-flight invariant, and the
self-cancellation was swallowed. -/
theorem c1_second_request_leaves_first_running :
    Brain.scenarioAfterB.inFlight = [Brain.TaskId.A, Brain.TaskId.B] ∧
    Brain.TaskId.A ∈ Brain.scenarioAfterB.inFlight ∧
    Brain.scenarioAfterB.selfCancelSwallowed = [Brain.TaskId.B] ∧
    Brain.scenarioAfterB.uiState = UIState.EXPANDING := by
  decide

/-! ### C2 -/

/-- C2: every exit of `expand_frame` — run to completion, or a cancellation
or exception stopping the try body after any number of phases — passes
through the finally block of leeloo_brain.py lines 634-642, which sets the
UI state back to NORMAL, clears the expanded-frame and message-view flags,
invalidates and refreshes the music data, and re-renders the normal idle
screen. -/
theorem c2_expand_frame_always_cleans_up (v0 : Brain.BrainVars) (frame : FrameType)
    (stopAfter : Option ℕ) :
    (Brain.expand_frame_run v0 frame stopAfter).uiState = UIState.NORMAL ∧
    (Brain.expand_frame_run v0 frame stopAfter).expandedFrame = none ∧
    (Brain.expand_frame_run v0 frame stopAfter).messageViewActive = false ∧
    (Brain.expand_frame_run v0 frame stopAfter).lastMusicFetch = 0 ∧
    (Brain.expand_frame_run v0 frame stopAfter).musicUpdated = true ∧
    (Brain.expand_frame_run v0 frame stopAfter).renderedNormal = true := by
  unfold Brain.expand_frame_run Brain.finallyBlock
  simp

/-! ### C3 -/

/-- C3 (counterexample): the claim says the delay slept after N consecutive
failures is min(base · 2^N, cap), i.e. 10 s after the first failure.  But
the loop sleeps `retry_delay` *before* doubling it (leeloo_brain.py
lines 2047-2048), so the sleep that follows the first failure from program
start is the base, 5 s, not min(5 · 2^1, 60) = 10 s. -/
theorem c3_reconnect_backoff_counterexample :
    WS.wsRun WS.WS_BASE [false] = [5] ∧
    (5 : ℕ) ≠ min (WS.WS_BASE * 2 ^ 1) WS.WS_MAX := by
  decide

/-- C3 (amended): from program start, the sleep that follows the Nth
consecutive failure is min(base · 2^(N-1), cap) — the delays of a failure
streak are 5, 10, 20, 40, 60, 60, ….  After a successful join the delay
resets: the iteration of a successful session sleeps the base 5 s on
disconnect, and the sleep that follows the Nth consecutive failure after a
success is min(base · 2^N, cap), which is the claimed formula for
post-success streaks only. -/
theorem c3_reconnect_backoff_amended :
    (∀ N : ℕ, WS.wsRun WS.WS_BASE (List.replicate N false) =
        (List.range N).map fun i => min (WS.WS_BASE * 2 ^ i) WS.WS_MAX) ∧
    (∀ d N : ℕ, WS.wsRun d (true :: List.replicate N false) =
        WS.WS_BASE ::
          ((List.range N).map fun i => min (WS.WS_BASE * 2 ^ (i + 1)) WS.WS_MAX)) := by
  constructor
  · intro N
    exact wsRun_replicate_false N WS.WS_BASE (by norm_num [WS.WS_BASE, WS.WS_MAX])
  · intro d N
    have step : WS.wsRun d (true :: List.replicate N false) =
        WS.WS_BASE :: WS.wsRun (min (WS.WS_BASE * 2) WS.WS_MAX) (List.replicate N false) := by
      simp [WS.wsRun, WS.wsIter]
    rw [step, wsRun_replicate_false N (min (WS.WS_BASE * 2) WS.WS_MAX) (min_le_right _ _)]
    have hf : (fun i => min (min (WS.WS_BASE * 2) WS.WS_MAX * 2 ^ i) WS.WS_MAX) =
        fun i => min (WS.WS_BASE * 2 ^ (i + 1)) WS.WS_MAX := by
      funext i
      norm_num [WS.WS_BASE, WS.WS_MAX]
      congr 1
      ring
    rw [hf]

/-! ### C4 -/

/-- C4 (counterexample): a delta exactly *at* the tap threshold does not
produce a raw tap, because `_check_tap` compares strictly
(`delta > TAP_THRESHOLD`, leeloo_tap.py line 90).  Reading magnitude 6/5
from a primed magnitude of 0 gives delta = 6/5 = TAP_THRESHOLD — "at the
threshold", which the claim says always produces a raw tap — yet no tap is
reported; a full scan with a prior accepted tap, its settle drain, and then
this at-threshold delta counts 1 raw tap where the claim demands 2. -/
theorem c4_at_threshold_counterexample :
    |(6/5 : ℚ) - 0| = Tap.TAP_THRESHOLD ∧
    (Tap.checkTap 0 (6/5)).1 = false ∧
    Tap.tapScan 0 [2, 0, 0, 0, 0, 0, 6/5] = 1 := by
  refine ⟨by norm_num [Tap.TAP_THRESHOLD, abs_of_nonneg], ?_, ?_⟩
  · norm_num [Tap.checkTap, Tap.TAP_THRESHOLD, abs_of_nonneg]
  · norm_num [Tap.tapScan, Tap.tapScanGo, Tap.TAP_THRESHOLD, Tap.SETTLE_DRAIN_READS,
      abs_of_nonneg, abs_of_nonpos]

/-- C4 (amended): a magnitude delta below the tap threshold never produces
a raw tap; a delta strictly *above* the threshold always registers as a raw
tap; and a strictly-above-threshold spike followed by a steady magnitude is
counted exactly once — the settle drain of `start` (leeloo_tap.py
lines 157-167) absorbs the rebound readings, so no second raw tap arises
from the same spike. -/
theorem c4_tap_threshold_amended :
    (∀ prev m : ℚ, |m - prev| < Tap.TAP_THRESHOLD → (Tap.checkTap prev m).1 = false) ∧
    (∀ prev m : ℚ, Tap.TAP_THRESHOLD < |m - prev| → (Tap.checkTap prev m).1 = true) ∧
    (∀ (prev m c : ℚ) (n : ℕ), Tap.TAP_THRESHOLD < |m - prev| →
      Tap.tapScan prev (m :: List.replicate n c) = 1) := by
  refine ⟨fun prev m h => ?_, fun prev m h => ?_, fun prev m c n h => ?_⟩
  · exact decide_eq_false (not_lt.mpr h.le)
  · exact decide_eq_true h
  · rw [Tap.tapScan, tapScanGo_zero_cons, if_pos h,
      show Tap.SETTLE_DRAIN_READS = 4 + 1 from rfl, tapScanGo_drain_steady c n 4 m]

/-- C4 (witness): the amended theorem applied at concrete readings — a
delta of 1 below the threshold yields no tap, a delta of 2 above it yields
a tap, and a spike of 2 followed by seven steady readings is counted as
exactly one raw tap. -/
theorem c4_tap_threshold_witness :
    ((1 : ℚ) = |(1 : ℚ) - 0| ∧ |(1 : ℚ) - 0| < Tap.TAP_THRESHOLD ∧
      (Tap.checkTap 0 1).1 = false) ∧
    (Tap.TAP_THRESHOLD < |(2 : ℚ) - 0| ∧ (Tap.checkTap 0 2).1 = true) ∧
    Tap.tapScan 0 (2 :: List.replicate 7 0) = 1 :=
  ⟨⟨by norm_num [abs_of_nonneg], by norm_num [Tap.TAP_THRESHOLD, abs_of_nonneg],
    c4_tap_threshold_amended.1 0 1 (by norm_num [Tap.TAP_THRESHOLD, abs_of_nonneg])⟩,
   ⟨by norm_num [Tap.TAP_THRESHOLD, abs_of_nonneg],
    c4_tap_threshold_amended.2.1 0 2 (by norm_num [Tap.TAP_THRESHOLD, abs_of_nonneg])⟩,
   c4_tap_threshold_amended.2.2 0 2 0 7 (by norm_num [Tap.TAP_THRESHOLD, abs_of_nonneg])⟩

/-! ### C9 -/

/-- C9: with the framebuffer available, `_typewriter` returns an overflow
record exactly when the rendered total height of the content lines exceeds
the visible height of the expanded frame; any returned record satisfies
total_height > visible_height; and on fitting content it returns no
overflow, in which case the hold phase of `expand_frame` is a plain sleep
for the hold duration — `_scroll_content` is never invoked. -/
theorem c9_typewriter_overflow (lines : List Brain.ContentLine) (d : ℚ) :
    ((Brain.typewriter true lines).isSome ↔
      Brain.VISIBLE_HEIGHT < Brain.totalContentHeight lines) ∧
    (∀ o : Brain.Overflow, Brain.typewriter true lines = some o →
      o.visible_height < o.total_height) ∧
    (Brain.typewriter true lines = none →
      Brain.holdPhase (Brain.typewriter true lines) d = Brain.HoldAction.sleep d) := by
  have ht : Brain.typewriter true lines =
      if Brain.VISIBLE_HEIGHT < Brain.totalContentHeight lines then
        some ⟨Brain.totalContentHeight lines, Brain.VISIBLE_HEIGHT,
          Brain.CONTENT_X, Brain.CONTENT_Y⟩
      else none := by
    simp [Brain.typewriter]
  refine ⟨?_, ?_, ?_⟩
  · rw [ht]
    split <;> simp_all
  · intro o ho
    rw [ht] at ho
    split at ho
    · cases ho
      assumption
    · exact absurd ho (by simp)
  · intro hn
    rw [hn]
    rfl

/-- C9 (witness): twelve non-empty lines render 264 px, which overflows
the 259 px visible height, so the typewriter reports overflow; the empty
content list fits, reports none, and the hold phase is a plain sleep. -/
theorem c9_typewriter_overflow_witness :
    Brain.VISIBLE_HEIGHT <
      Brain.totalContentHeight (List.replicate 12 ⟨"x", none, none⟩) ∧
    (Brain.typewriter true (List.replicate 12 ⟨"x", none, none⟩)).isSome ∧
    Brain.typewriter true [] = none ∧
    Brain.holdPhase (Brain.typewriter true []) 20 = Brain.HoldAction.sleep 20 :=
  ⟨by decide,
   (c9_typewriter_overflow (List.replicate 12 ⟨"x", none, none⟩) 20).1.mpr (by decide),
   by decide,
   (c9_typewriter_overflow [] 20).2.2 (by decide)⟩

/-! ### C10 -/

/-- C10: a single tap that arrives while the UI state is LISTENING or
PROCESSING is dropped entirely by `_handle_single_tap` (leeloo_brain.py
lines 821-825): no action at all is dispatched — in particular no LED
acknowledgement, no voice session of either kind, and no expansion
request — so a tap cannot start a second concurrent voice capture. -/
theorem c10_tap_dropped_while_voice_active (c : Brain.TapContext)
    (h : c.uiState = UIState.LISTENING ∨ c.uiState = UIState.PROCESSING) :
    Brain.handleSingleTap c = [] ∧
    Brain.TapAction.ledAck ∉ Brain.handleSingleTap c ∧
    Brain.TapAction.voiceInteraction ∉ Brain.handleSingleTap c ∧
    Brain.TapAction.voiceOnlySession ∉ Brain.handleSingleTap c ∧
    Brain.TapAction.demoWeatherExpand ∉ Brain.handleSingleTap c := by
  have he : Brain.handleSingleTap c = [] := by
    rcases h with h | h <;> simp [Brain.handleSingleTap, h]
  rw [he]
  simp

/-- C10 (witness): the theorem applied while LISTENING with voice and the
intent router configured. -/
theorem c10_tap_dropped_while_voice_active_witness :
    Brain.handleSingleTap ⟨UIState.LISTENING, false, true, true⟩ = [] ∧
    Brain.TapAction.ledAck ∉ Brain.handleSingleTap ⟨UIState.LISTENING, false, true, true⟩ ∧
    Brain.TapAction.voiceInteraction ∉
      Brain.handleSingleTap ⟨UIState.LISTENING, false, true, true⟩ ∧
    Brain.TapAction.voiceOnlySession ∉
      Brain.handleSingleTap ⟨UIState.LISTENING, false, true, true⟩ ∧
    Brain.TapAction.demoWeatherExpand ∉
      Brain.handleSingleTap ⟨UIState.LISTENING, false, true, true⟩ :=
  c10_tap_dropped_while_voice_active ⟨UIState.LISTENING, false, true, true⟩ (Or.inl rfl)

/-! ### C6 -/

/-- C6: calling `set_ambient "playing"` while the ambient breathe task
started by `set_ambient "idle"` is still running takes the in-place branch
of leeloo_led.py lines 167-176: the very same breathe task keeps running
(same id, same phase-fixing start time, still the only breathe task), no
`_set_color` call is made by the switch — in particular the OFF write of
the clean-start path (line 181) does not happen, so the switch itself
never shows a black frame — and from the next tick on the lazily read
colour resolves to PURPLE, which is not OFF. -/
theorem c6_ambient_switch_in_place (s : LED.LEDState) (T : LED.BreatheTask)
    (now : ℚ) (freshId : ℕ)
    (hTask : s.ambientTask = some T)
    (hState : s.ambientState = some LED.AmbientKind.idle)
    (hRun : s.breathersRunning = [T]) :
    (LED.set_ambient now freshId s (some LED.AmbientKind.playing)).ambientTask = some T ∧
    (LED.set_ambient now freshId s (some LED.AmbientKind.playing)).breathersRunning = [T] ∧
    (LED.set_ambient now freshId s (some LED.AmbientKind.playing)).writes = s.writes ∧
    (LED.set_ambient now freshId s (some LED.AmbientKind.playing)).ambientState =
      some LED.AmbientKind.playing ∧
    LED.breatheTickColor
      (LED.set_ambient now freshId s (some LED.AmbientKind.playing)).ambientState =
        LED.PURPLE ∧
    LED.PURPLE ≠ LED.OFF := by
  have hrun : (LED.set_ambient now freshId s (some LED.AmbientKind.playing)) =
      { s with ambientState := some LED.AmbientKind.playing } := by
    simp [LED.set_ambient, hTask]
  rw [hrun]
  refine ⟨hTask, hRun, rfl, rfl, by simp [LED.breatheTickColor], by decide⟩

/-- C6 (witness): the theorem applied to a concrete LED state with one
running breathe task started at time 0 while idle. -/
theorem c6_ambient_switch_in_place_witness :
    (LED.set_ambient 3 7 ⟨some LED.AmbientKind.idle, some ⟨0, 0⟩, none, [⟨0, 0⟩], []⟩
        (some LED.AmbientKind.playing)).ambientTask = some ⟨0, 0⟩ ∧
    (LED.set_ambient 3 7 ⟨some LED.AmbientKind.idle, some ⟨0, 0⟩, none, [⟨0, 0⟩], []⟩
        (some LED.AmbientKind.playing)).breathersRunning = [⟨0, 0⟩] ∧
    (LED.set_ambient 3 7 ⟨some LED.AmbientKind.idle, some ⟨0, 0⟩, none, [⟨0, 0⟩], []⟩
        (some LED.AmbientKind.playing)).writes = [] ∧
    (LED.set_ambient 3 7 ⟨some LED.AmbientKind.idle, some ⟨0, 0⟩, none, [⟨0, 0⟩], []⟩
        (some LED.AmbientKind.playing)).ambientState = some LED.AmbientKind.playing ∧
    LED.breatheTickColor
      (LED.set_ambient 3 7 ⟨some LED.AmbientKind.idle, some ⟨0, 0⟩, none, [⟨0, 0⟩], []⟩
        (some LED.AmbientKind.playing)).ambientState = LED.PURPLE ∧
    LED.PURPLE ≠ LED.OFF :=
  c6_ambient_switch_in_place ⟨some LED.AmbientKind.idle, some ⟨0, 0⟩, none, [⟨0, 0⟩], []⟩
    ⟨0, 0⟩ 3 7 rfl rfl rfl

/-! ### C8 -/

/-- C8 (counterexample): the claim says an exception during streaming makes
`record_and_transcribe` return the empty string.  But an exception inside
the `_stream_audio` loop is caught there (leeloo_voice.py lines 273-275)
and only breaks the loop; the call then still joins the final fragments
already received (lines 202-207).  In an environment where streaming was
interrupted by an exception after one final fragment "hello" arrived, the
call returns "hello", not "". -/
theorem c8_stream_error_counterexample :
    Voice.record_and_transcribe ⟨true, "k", true, true, true, ["hello"], ""⟩ = "hello" ∧
    ("hello" : String) ≠ "" ∧
    (⟨true, "k", true, true, true, ["hello"], ""⟩ : Voice.VoiceEnv).streamError = true := by
  refine ⟨?_, by decide, rfl⟩
  rfl

/-- C8 (amended): `record_and_transcribe` returns the empty string — never
raising — when the websockets library is missing, when no API key is
configured, when the Deepgram connection is refused or fails to
authenticate, and when the audio capture cannot start (hardware absence);
an exception *during* streaming, by contrast, only stops the capture early,
and the call returns the usual result: the space-joined final transcript
fragments, falling back to the stripped last interim fragment when no
final fragment arrived. -/
theorem c8_transcribe_failure_amended (env : Voice.VoiceEnv) :
    (env.websocketsAvailable = false → Voice.record_and_transcribe env = "") ∧
    (env.apiKey = "" → Voice.record_and_transcribe env = "") ∧
    (env.connectOk = false → Voice.record_and_transcribe env = "") ∧
    (env.captureStartOk = false → Voice.record_and_transcribe env = "") ∧
    (env.websocketsAvailable = true → env.apiKey ≠ "" → env.connectOk = true →
      env.captureStartOk = true →
      (Voice.pyStrip (String.intercalate " " env.finals) ≠ "" →
        Voice.record_and_transcribe env = Voice.pyStrip (String.intercalate " " env.finals)) ∧
      (Voice.pyStrip (String.intercalate " " env.finals) = "" → env.interim ≠ "" →
        Voice.record_and_transcribe env = Voice.pyStrip env.interim)) := by
  refine ⟨fun h => ?_, fun h => ?_, fun h => ?_, fun h => ?_, fun h1 h2 h3 h4 => ⟨fun h5 => ?_, fun h5 h6 => ?_⟩⟩
  · simp [Voice.record_and_transcribe, h]
  · simp [Voice.record_and_transcribe, h]
  · simp [Voice.record_and_transcribe, h]
  · simp [Voice.record_and_transcribe, h]
  · simp [Voice.record_and_transcribe, h1, h2, h3, h4, h5]
  · simp [Voice.record_and_transcribe, h1, h2, h3, h4, h5, h6]

/-- C8 (witness): the amended theorem applied to two concrete
environments — one with the websockets library missing (returns ""), and a
successful run with finals ["hi", "there"] interrupted by no failure
(returns "hi there"). -/
theorem c8_transcribe_failure_witness :
    Voice.record_and_transcribe ⟨false, "k", true, true, false, [], ""⟩ = "" ∧
    Voice.record_and_transcribe ⟨true, "k", true, true, false, ["hi", "there"], ""⟩ =
      Voice.pyStrip (String.intercalate " " ["hi", "there"]) :=
  ⟨(c8_transcribe_failure_amended ⟨false, "k", true, true, false, [], ""⟩).1 rfl,
   ((c8_transcribe_failure_amended
      ⟨true, "k", true, true, false, ["hi", "there"], ""⟩).2.2.2.2 rfl (by decide) rfl rfl).1
      (by decide)⟩

/-! ### C5 -/

/-- Unfolding equation for `runTaps` on a cons cell. -/
theorem runTaps_cons (s : Tap.ResolveState) (t : ℚ) (ts : List ℚ) :
    Tap.runTaps s (t :: ts) =
      ((Tap.runTaps (Tap.onRawTap s t).1 ts).1,
       (Tap.onRawTap s t).2 ++ (Tap.runTaps (Tap.onRawTap s t).1 ts).2) := rfl

/-- Unfolding equation for `runTaps` on the empty list with no pending
resolution. -/
theorem runTaps_nil_no_pending (c : ℕ) (lt : ℚ) :
    Tap.runTaps ⟨c, lt, none⟩ [] = (⟨c, lt, none⟩, []) := rfl

/-- C5: three raw taps, each accepted by the debounce and each arriving
before the pending resolution of the previous taps fires (i.e. within the
double- and triple-tap windows), produce exactly one emitted event: a
`triple_tap` emitted at the time of the third tap — the third tap resolves
immediately, without waiting out a resolution window — and the tap counter
is reset to zero. -/
theorem c5_triple_tap_resolution (t1 t2 t3 : ℚ)
    (h1 : Tap.DEBOUNCE_TIME ≤ t1)
    (h2 : Tap.DEBOUNCE_TIME ≤ t2 - t1) (h2w : t2 ≤ t1 + Tap.DOUBLE_TAP_WINDOW)
    (h3 : Tap.DEBOUNCE_TIME ≤ t3 - t2) (h3w : t3 ≤ t2 + Tap.TRIPLE_TAP_WINDOW) :
    Tap.runTaps Tap.initResolveState [t1, t2, t3] =
      (⟨0, t3, none⟩, [(t3, Tap.TapKind.triple)]) := by
  have hd1 : ¬ (t1 - (0 : ℚ) < Tap.DEBOUNCE_TIME) := by
    rw [sub_zero]
    exact not_lt.mpr h1
  have e1 : Tap.onRawTap Tap.initResolveState t1 =
      (⟨1, t1, some (t1 + Tap.DOUBLE_TAP_WINDOW)⟩, []) := by
    simp only [Tap.onRawTap, Tap.fireIfDue, Tap.initResolveState]
    norm_num [hd1, h1]
  have hf2 : ¬ (t1 + Tap.DOUBLE_TAP_WINDOW < t2) := not_lt.mpr h2w
  have hd2 : ¬ (t2 - t1 < Tap.DEBOUNCE_TIME) := not_lt.mpr h2
  have e2 : Tap.onRawTap ⟨1, t1, some (t1 + Tap.DOUBLE_TAP_WINDOW)⟩ t2 =
      (⟨2, t2, some (t2 + Tap.TRIPLE_TAP_WINDOW)⟩, []) := by
    simp only [Tap.onRawTap, Tap.fireIfDue]
    norm_num [hf2, hd2, h2]
  have hf3 : ¬ (t2 + Tap.TRIPLE_TAP_WINDOW < t3) := not_lt.mpr h3w
  have hd3 : ¬ (t3 - t2 < Tap.DEBOUNCE_TIME) := not_lt.mpr h3
  have e3 : Tap.onRawTap ⟨2, t2, some (t2 + Tap.TRIPLE_TAP_WINDOW)⟩ t3 =
      (⟨0, t3, none⟩, [(t3, Tap.TapKind.triple)]) := by
    simp only [Tap.onRawTap, Tap.fireIfDue]
    norm_num [hf3, hd3, h3, Tap.resolveKind]
  rw [runTaps_cons, e1]
  rw [show ((⟨1, t1, some (t1 + Tap.DOUBLE_TAP_WINDOW)⟩, ([] : List (ℚ × Tap.TapKind))).1 :
      Tap.ResolveState) = ⟨1, t1, some (t1 + Tap.DOUBLE_TAP_WINDOW)⟩ from rfl]
  rw [runTaps_cons, e2]
  rw [show ((⟨2, t2, some (t2 + Tap.TRIPLE_TAP_WINDOW)⟩, ([] : List (ℚ × Tap.TapKind))).1 :
      Tap.ResolveState) = ⟨2, t2, some (t2 + Tap.TRIPLE_TAP_WINDOW)⟩ from rfl]
  rw [runTaps_cons, e3]
  simp [runTaps_nil_no_pending]

/-- C5 (witness): the theorem applied at taps 0.5 s apart — the tightest
spacing the debounce admits, each arriving exactly on the pending window's
boundary — yielding one triple_tap at the third tap's time 3/2. -/
theorem c5_triple_tap_resolution_witness :
    Tap.runTaps Tap.initResolveState [1/2, 1, 3/2] =
      (⟨0, 3/2, none⟩, [(3/2, Tap.TapKind.triple)]) :=
  c5_triple_tap_resolution (1/2) 1 (3/2)
    (by norm_num [Tap.DEBOUNCE_TIME])
    (by norm_num [Tap.DEBOUNCE_TIME])
    (by norm_num [Tap.DOUBLE_TAP_WINDOW])
    (by norm_num [Tap.DEBOUNCE_TIME])
    (by norm_num [Tap.TRIPLE_TAP_WINDOW])

/-! ### C7 -/

/-- While every chunk is loud, the stream loop never breaks early: it
consumes the whole list or stops at the max-chunk cap. -/
theorem streamAudioGo_all_loud (l : List ℚ) : ∀ (total sil : ℕ) (heard : Bool),
    (∀ r ∈ l, Voice.SILENCE_THRESHOLD < r) → total ≤ Voice.MAX_CHUNKS →
    Voice.streamAudioGo ⟨total, sil, heard⟩ l = min (total + l.length) Voice.MAX_CHUNKS := by
  induction l with
  | nil =>
    intro total sil heard _ hle
    simp [Voice.streamAudioGo, Nat.min_eq_left hle]
  | cons r rest ih =>
    intro total sil heard hl hle
    by_cases hmax : Voice.MAX_CHUNKS ≤ total
    · have heq : total = Voice.MAX_CHUNKS := le_antisymm hle hmax
      simp only [Voice.streamAudioGo, if_pos hmax]
      rw [List.length_cons]
      omega
    · have hloud : Voice.SILENCE_THRESHOLD < r := hl r (List.mem_cons_self r rest)
      by_cases hg : total + 1 ≤ Voice.GRACE_CHUNKS
      · have hstep : Voice.streamAudioGo ⟨total, sil, heard⟩ (r :: rest) =
            Voice.streamAudioGo ⟨total + 1, sil, heard⟩ rest := by
          simp only [Voice.streamAudioGo, if_neg hmax, if_pos hg]
        rw [hstep, ih (total + 1) sil heard
          (fun x hx => hl x (List.mem_cons_of_mem r hx)) (by omega)]
        rw [List.length_cons]
        omega
      · have hstep : Voice.streamAudioGo ⟨total, sil, heard⟩ (r :: rest) =
            Voice.streamAudioGo ⟨total + 1, 0, true⟩ rest := by
          simp only [Voice.streamAudioGo, if_neg hmax, if_neg hg,
            decide_eq_true hloud]
          norm_num [Voice.SILENCE_CHUNKS_NEEDED]
        rw [hstep, ih (total + 1) 0 true
          (fun x hx => hl x (List.mem_cons_of_mem r hx)) (by omega)]
        rw [List.length_cons]
        omega

/-- While no chunk is ever loud and no speech was heard, the loop stops at
the no-speech deadline (or at the end of the stream). -/
theorem streamAudioGo_no_speech (l : List ℚ) : ∀ (total sil : ℕ),
    (∀ r ∈ l, r ≤ Voice.SILENCE_THRESHOLD) →
    total < Voice.NO_SPEECH_CHUNKS →
    Voice.streamAudioGo ⟨total, sil, false⟩ l =
      min (total + l.length) Voice.NO_SPEECH_CHUNKS := by
  induction l with
  | nil =>
    intro total sil _ hlt
    simp [Voice.streamAudioGo, Nat.min_eq_left (le_of_lt hlt)]
  | cons r rest ih =>
    intro total sil hl hlt
    have hc : Voice.NO_SPEECH_CHUNKS ≤ Voice.MAX_CHUNKS := by
      norm_num [Voice.NO_SPEECH_CHUNKS, Voice.MAX_CHUNKS]
    have hmax : ¬ (Voice.MAX_CHUNKS ≤ total) := by omega
    have hquiet : ¬ (Voice.SILENCE_THRESHOLD < r) :=
      not_lt.mpr (hl r (List.mem_cons_self r rest))
    by_cases hg : total + 1 ≤ Voice.GRACE_CHUNKS
    · have hgc : Voice.GRACE_CHUNKS < Voice.NO_SPEECH_CHUNKS := by
        norm_num [Voice.GRACE_CHUNKS, Voice.NO_SPEECH_CHUNKS]
      have hstep : Voice.streamAudioGo ⟨total, sil, false⟩ (r :: rest) =
          Voice.streamAudioGo ⟨total + 1, sil, false⟩ rest := by
        simp only [Voice.streamAudioGo, if_neg hmax, if_pos hg]
      rw [hstep, ih (total + 1) sil
        (fun x hx => hl x (List.mem_cons_of_mem r hx)) (by omega)]
      rw [List.length_cons]
      omega
    · by_cases hstop : Voice.NO_SPEECH_CHUNKS ≤ total + 1
      · have hstep : Voice.streamAudioGo ⟨total, sil, false⟩ (r :: rest) = total + 1 := by
          simp only [Voice.streamAudioGo, if_neg hmax, if_neg hg,
            decide_eq_false hquiet]
          norm_num [hstop]
        rw [hstep, List.length_cons]
        omega
      · have hstep : Voice.streamAudioGo ⟨total, sil, false⟩ (r :: rest) =
            Voice.streamAudioGo ⟨total + 1, sil + 1, false⟩ rest := by
          simp only [Voice.streamAudioGo, if_neg hmax, if_neg hg,
            decide_eq_false hquiet]
          norm_num [hstop]
        rw [hstep, ih (total + 1) (sil + 1)
          (fun x hx => hl x (List.mem_cons_of_mem r hx)) (by omega)]
        rw [List.length_cons]
        omega

/-- Once speech was heard and the grace period is over, a run of quiet
chunks stops the loop exactly when the silence run reaches the needed
length. -/
theorem streamAudioGo_silence_run (l : List ℚ) : ∀ (total sil : ℕ),
    (∀ r ∈ l, r ≤ Voice.SILENCE_THRESHOLD) →
    Voice.GRACE_CHUNKS ≤ total →
    sil < Voice.SILENCE_CHUNKS_NEEDED →
    total + (Voice.SILENCE_CHUNKS_NEEDED - sil) ≤ Voice.MAX_CHUNKS →
    Voice.SILENCE_CHUNKS_NEEDED - sil ≤ l.length →
    Voice.streamAudioGo ⟨total, sil, true⟩ l =
      total + (Voice.SILENCE_CHUNKS_NEEDED - sil) := by
  induction l with
  | nil =>
    intro total sil _ _ hsil _ hlen
    simp only [List.length_nil] at hlen
    omega
  | cons r rest ih =>
    intro total sil hl hgr hsil hbound hlen
    have hlen' : Voice.SILENCE_CHUNKS_NEEDED - sil ≤ rest.length + 1 := by
      simpa using hlen
    have hmax : ¬ (Voice.MAX_CHUNKS ≤ total) := by omega
    have hg : ¬ (total + 1 ≤ Voice.GRACE_CHUNKS) := by omega
    have hquiet : ¬ (Voice.SILENCE_THRESHOLD < r) :=
      not_lt.mpr (hl r (List.mem_cons_self r rest))
    by_cases hdone : Voice.SILENCE_CHUNKS_NEEDED ≤ sil + 1
    · have hstep : Voice.streamAudioGo ⟨total, sil, true⟩ (r :: rest) = total + 1 := by
        simp only [Voice.streamAudioGo, if_neg hmax, if_neg hg,
          decide_eq_false hquiet]
        norm_num [hdone]
      rw [hstep]
      omega
    · have hstep : Voice.streamAudioGo ⟨total, sil, true⟩ (r :: rest) =
          Voice.streamAudioGo ⟨total + 1, sil + 1, true⟩ rest := by
        simp only [Voice.streamAudioGo, if_neg hmax, if_neg hg,
          decide_eq_false hquiet]
        norm_num [hdone]
      rw [hstep, ih (total + 1) (sil + 1)
        (fun x hx => hl x (List.mem_cons_of_mem r hx)) (by omega) (by omega)
        (by omega) (by omega)]
      omega

/-- During the grace chunks (RMS not inspected), the loop just counts. -/
theorem streamAudioGo_grace (gr : List ℚ) : ∀ (rest : List ℚ) (total sil : ℕ) (heard : Bool),
    total + gr.length ≤ Voice.GRACE_CHUNKS →
    Voice.streamAudioGo ⟨total, sil, heard⟩ (gr ++ rest) =
      Voice.streamAudioGo ⟨total + gr.length, sil, heard⟩ rest := by
  induction gr with
  | nil =>
    intro rest total sil heard _
    simp
  | cons r gr' ih =>
    intro rest total sil heard hb
    have hb' : total + (gr'.length + 1) ≤ Voice.GRACE_CHUNKS := by simpa using hb
    have hmc : Voice.GRACE_CHUNKS < Voice.MAX_CHUNKS := by
      norm_num [Voice.GRACE_CHUNKS, Voice.MAX_CHUNKS]
    have hmax : ¬ (Voice.MAX_CHUNKS ≤ total) := by omega
    have hg : total + 1 ≤ Voice.GRACE_CHUNKS := by omega
    have hstep : Voice.streamAudioGo ⟨total, sil, heard⟩ ((r :: gr') ++ rest) =
        Voice.streamAudioGo ⟨total + 1, sil, heard⟩ (gr' ++ rest) := by
      simp only [List.cons_append, Voice.streamAudioGo, if_neg hmax, if_pos hg]
      rfl
    rw [hstep, ih rest (total + 1) sil heard (by omega), List.length_cons,
      show total + 1 + gr'.length = total + (gr'.length + 1) from by omega]

/-- A nonempty run of loud chunks past the grace period marks speech,
clears the silence counter, and passes straight through the loop. -/
theorem streamAudioGo_loud_run (loud : List ℚ) :
    ∀ (rest : List ℚ) (total sil : ℕ) (heard : Bool),
    (∀ r ∈ loud, Voice.SILENCE_THRESHOLD < r) →
    total + loud.length ≤ Voice.MAX_CHUNKS →
    Voice.GRACE_CHUNKS ≤ total →
    loud ≠ [] →
    Voice.streamAudioGo ⟨total, sil, heard⟩ (loud ++ rest) =
      Voice.streamAudioGo ⟨total + loud.length, 0, true⟩ rest := by
  induction loud with
  | nil =>
    intro _ _ _ _ _ _ _ hne
    exact absurd rfl hne
  | cons r loud' ih =>
    intro rest total sil heard hl hb hgr _
    have hb' : total + (loud'.length + 1) ≤ Voice.MAX_CHUNKS := by simpa using hb
    have hmax : ¬ (Voice.MAX_CHUNKS ≤ total) := by omega
    have hg : ¬ (total + 1 ≤ Voice.GRACE_CHUNKS) := by omega
    have hloud : Voice.SILENCE_THRESHOLD < r := hl r (List.mem_cons_self r loud')
    have hstep : Voice.streamAudioGo ⟨total, sil, heard⟩ ((r :: loud') ++ rest) =
        Voice.streamAudioGo ⟨total + 1, 0, true⟩ (loud' ++ rest) := by
      simp only [List.cons_append, Voice.streamAudioGo, if_neg hmax, if_neg hg,
        decide_eq_true hloud]
      norm_num [Voice.SILENCE_CHUNKS_NEEDED]
    rcases eq_or_ne loud' [] with he | he
    · subst he
      rw [hstep]
      simp
    · rw [hstep, ih rest (total + 1) 0 true
        (fun x hx => hl x (List.mem_cons_of_mem r hx)) (by omega) (by omega) he,
        List.length_cons,
        show total + 1 + loud'.length = total + (loud'.length + 1) from by omega]

/-- C7: the three stop conditions of `_stream_audio`.  A stream in which
every chunk is loud stops exactly at the max chunk count (150 chunks =
15 s).  A stream that is loud past the grace period and then stays quiet
stops exactly at loud-prefix-length + silence-chunks (grace + post-grace
loud period + 1.5 s of silence).  A stream in which no chunk ever exceeds
the threshold stops exactly at the no-speech deadline (50 chunks = 5 s). -/
theorem c7_stream_stop_conditions :
    (∀ l : List ℚ, (∀ r ∈ l, Voice.SILENCE_THRESHOLD < r) →
      Voice.MAX_CHUNKS ≤ l.length → Voice.streamAudio l = Voice.MAX_CHUNKS) ∧
    (∀ loud silent : List ℚ, (∀ r ∈ loud, Voice.SILENCE_THRESHOLD < r) →
      (∀ r ∈ silent, r ≤ Voice.SILENCE_THRESHOLD) →
      Voice.GRACE_CHUNKS < loud.length →
      loud.length + Voice.SILENCE_CHUNKS_NEEDED ≤ Voice.MAX_CHUNKS →
      Voice.SILENCE_CHUNKS_NEEDED ≤ silent.length →
      Voice.streamAudio (loud ++ silent) =
        loud.length + Voice.SILENCE_CHUNKS_NEEDED) ∧
    (∀ l : List ℚ, (∀ r ∈ l, r ≤ Voice.SILENCE_THRESHOLD) →
      Voice.NO_SPEECH_CHUNKS ≤ l.length →
      Voice.streamAudio l = Voice.NO_SPEECH_CHUNKS) := by
  refine ⟨?_, ?_, ?_⟩
  · intro l hl hlen
    rw [Voice.streamAudio, streamAudioGo_all_loud l 0 0 false hl (by omega)]
    omega
  · intro loud silent hloud hsil hgr hbound hslen
    have hcs : Voice.SILENCE_CHUNKS_NEEDED = 15 := rfl
    have htk : (loud.take Voice.GRACE_CHUNKS).length = Voice.GRACE_CHUNKS := by
      rw [List.length_take]
      omega
    have hdl : (loud.drop Voice.GRACE_CHUNKS).length =
        loud.length - Voice.GRACE_CHUNKS := List.length_drop _ _
    have hne : loud.drop Voice.GRACE_CHUNKS ≠ [] := by
      apply List.ne_nil_of_length_pos
      omega
    rw [Voice.streamAudio]
    conv_lhs => rw [(List.take_append_drop Voice.GRACE_CHUNKS loud).symm]
    rw [List.append_assoc,
      streamAudioGo_grace (loud.take Voice.GRACE_CHUNKS) _ 0 0 false (by omega),
      htk, Nat.zero_add]
    rw [streamAudioGo_loud_run (loud.drop Voice.GRACE_CHUNKS) silent
      Voice.GRACE_CHUNKS 0 false
      (fun x hx => hloud x (List.drop_subset _ _ hx)) (by omega) (by omega) hne,
      hdl,
      show Voice.GRACE_CHUNKS + (loud.length - Voice.GRACE_CHUNKS) = loud.length from by
        omega]
    rw [streamAudioGo_silence_run silent loud.length 0 hsil (by omega) (by omega)
      (by omega) (by omega)]
    omega
  · intro l hl hlen
    have hgc : Voice.GRACE_CHUNKS < Voice.NO_SPEECH_CHUNKS := by
      norm_num [Voice.GRACE_CHUNKS, Voice.NO_SPEECH_CHUNKS]
    rw [Voice.streamAudio, streamAudioGo_no_speech l 0 0 hl (by omega)]
    omega

/-- C7 (witness): the theorem applied to three concrete streams — 150 loud
chunks stop at 150; 6 loud then 15 quiet chunks stop at 21 = 6 + 15; 50
quiet chunks stop at 50. -/
theorem c7_stream_stop_conditions_witness :
    Voice.streamAudio (List.replicate 150 31) = Voice.MAX_CHUNKS ∧
    Voice.streamAudio (List.replicate 6 31 ++ List.replicate 15 0) = 21 ∧
    Voice.streamAudio (List.replicate 50 0) = Voice.NO_SPEECH_CHUNKS := by
  refine ⟨?_, ?_, ?_⟩
  · exact c7_stream_stop_conditions.1 (List.replicate 150 31)
      (fun r hr => by rw [List.eq_of_mem_replicate hr]; norm_num [Voice.SILENCE_THRESHOLD])
      (by simp [Voice.MAX_CHUNKS])
  · have h := c7_stream_stop_conditions.2.1 (List.replicate 6 31) (List.replicate 15 0)
      (fun r hr => by rw [List.eq_of_mem_replicate hr]; norm_num [Voice.SILENCE_THRESHOLD])
      (fun r hr => by rw [List.eq_of_mem_replicate hr]; norm_num [Voice.SILENCE_THRESHOLD])
      (by simp [Voice.GRACE_CHUNKS])
      (by simp [Voice.SILENCE_CHUNKS_NEEDED, Voice.MAX_CHUNKS])
      (by simp [Voice.SILENCE_CHUNKS_NEEDED])
    simpa [Voice.SILENCE_CHUNKS_NEEDED] using h
  · exact c7_stream_stop_conditions.2.2 (List.replicate 50 0)
      (fun r hr => by rw [List.eq_of_mem_replicate hr]; norm_num [Voice.SILENCE_THRESHOLD])
      (by simp [Voice.NO_SPEECH_CHUNKS])
